import Mathlib

/-!
Verification of the deterministic scoring engine of the
Deepfake_video_ai_detector repository (backend/app).

The Python code is shallowly embedded as follows:
* Python/NumPy floats are exact rationals (`ℚ`); the non-finite Python
  values a caller might pass into the metrics utilities are modelled by
  the tagged type `PyVal` (non-numeric object, NaN, the two infinities,
  or an ordinary number).
* The OpenCV / NumPy library primitives the service invokes (grayscale
  conversion, Laplacian and Sobel filters, 2D FFT magnitude, `sqrt`,
  `log`, `log2`, HSV histograms, the Haar face cascade) are external
  libraries, not code of this repository; they are parameters of the
  embedding (`CVPrims`, `FaceEnv`), and theorems state the mathematical
  facts about them they rely on as explicit hypotheses.
* Raised Python exceptions are `Except.error`.
-/

namespace Deepfake

/-- Model of a Python value passed where a float is expected: a
non-numeric object, float NaN, the infinities, or a finite number. -/
inductive PyVal where
  | nonNumeric
  | nan
  | posInf
  | negInf
  | num (q : ℚ)
deriving DecidableEq

/-- Python `isinstance(x, (int, float))`: every float (NaN and infinities
included) is a number; only non-numeric objects are not. -/
def PyVal.isNumber : PyVal → Bool
  | .nonNumeric => false
  | _ => true

/-- NumPy `np.isnan(x)`. -/
def PyVal.isNan : PyVal → Bool
  | .nan => true
  | _ => false

/-- NumPy `np.clip(x, 0.0, 1.0)` on a numeric, non-NaN value (the only values
the code applies it to). -/
def PyVal.clip01 : PyVal → ℚ
  | .num q => max 0 (min 1 q)
  | .posInf => 1
  | .negInf => 0
  | _ => 0

/-- Python chained comparison `0.0 <= x <= 1.0` on a float. -/
def PyVal.inUnitInterval : PyVal → Bool
  | .num q => decide (0 ≤ q ∧ q ≤ 1)
  | _ => false

/-- Python comparison `x >= t` for a float `x` against a finite `t`. -/
def pvGE (v : PyVal) (t : ℚ) : Bool :=
  match v with
  | .num q => decide (t ≤ q)
  | .posInf => true
  | _ => false

/-- Python comparison `x < t` for a float `x` against a finite `t`. -/
def pvLT (v : PyVal) (t : ℚ) : Bool :=
  match v with
  | .num q => decide (q < t)
  | .negInf => true
  | _ => false

/-! Constants from `backend/app/constants.py`. -/

def CLASSIFICATION_THRESHOLD : ℚ := 1/2
def HEURISTIC_WEIGHT_SHARPNESS : ℚ := 35/100
def HEURISTIC_WEIGHT_COMPRESSION : ℚ := 25/100
def HEURISTIC_WEIGHT_OPTICAL_FLOW : ℚ := 2/10
def HEURISTIC_WEIGHT_FREQUENCY : ℚ := 2/10
def SHARPNESS_CONSISTENCY_DIVISOR : ℚ := 2
def TEMPORAL_DIFF_LOW_PENALTY : ℚ := 25/100
def TEMPORAL_DIFF_HIGH_PENALTY : ℚ := 2/10
def ENTROPY_STD_DIVISOR : ℚ := 1
def ENSEMBLE_WEIGHT_HEURISTIC : ℚ := 4/10
def ENSEMBLE_WEIGHT_MODEL : ℚ := 6/10
def RISK_LEVEL_LOW_THRESHOLD : ℚ := 35/100
def RISK_LEVEL_MEDIUM_THRESHOLD : ℚ := 65/100
def HISTOGRAM_BINS_H : ℕ := 32
def HISTOGRAM_BINS_S : ℕ := 32

/-! `backend/app/utils/metrics.py`. -/

/-- Embeds `ensemble_score` (metrics.py lines 27-82): validate the heuristic
score, clamp it, and either fall back to it or fuse it with a valid
model score by the fixed 0.4/0.6 weighted average. -/
def ensemble_score (heuristic : PyVal) (model : Option PyVal) :
    Except String (ℚ × String) :=
  if !heuristic.isNumber || heuristic.isNan then
    .error ("Invalid heuristic score")
  else
    let hq := heuristic.clip01
    match model with
    | some v =>
      if v.isNumber && !v.isNan && v.inUnitInterval then
        let mq := v.clip01
        .ok (max 0 (min 1 (ENSEMBLE_WEIGHT_HEURISTIC * hq + ENSEMBLE_WEIGHT_MODEL * mq)),
             "ensemble")
      else
        .ok (hq, "heuristic")
    | none => .ok (hq, "heuristic")

/-- Embeds `classify_score` (metrics.py lines 85-102). -/
def classify_score (confidence : PyVal) (threshold : ℚ) : Bool :=
  if !confidence.isNumber || confidence.isNan then false
  else pvGE confidence threshold

/-- Embeds `get_risk_level` (metrics.py lines 105-131). -/
def get_risk_level (confidence : PyVal) : String :=
  if !confidence.isNumber || confidence.isNan then "medium"
  else
    let c := confidence.clip01
    if c < RISK_LEVEL_LOW_THRESHOLD then "low"
    else if c < RISK_LEVEL_MEDIUM_THRESHOLD then "medium"
    else "high"

/-! Spec-side definitions (written from the words of the spec, for the
refinement claims; they are compared against the code embeddings). -/

/-- Modelled from the spec: a model score is unavailable when it is
`None`, NaN, non-numeric, infinite, or outside `[0, 1]`. -/
def specModelUnavailable : Option PyVal → Bool
  | none => true
  | some (.num q) => !decide (0 ≤ q ∧ q ≤ 1)
  | some _ => true

/-- Modelled from the spec: risk bands `< 0.35 → low`, `< 0.65 → medium`,
otherwise `high`, stated directly on the (unclipped) confidence. -/
def specRisk (v : PyVal) : String :=
  if pvLT v RISK_LEVEL_LOW_THRESHOLD then "low"
  else if pvLT v RISK_LEVEL_MEDIUM_THRESHOLD then "medium"
  else "high"

/-! Frames and the library-primitive parameters. -/

/-- A 3-channel (BGR) pixel. -/
abbrev Pixel := ℚ × ℚ × ℚ

/-- A raster frame: pixel value at row-column coordinates.  Frames of an
analysis all share the dimensions `h × w` passed alongside them. -/
abbrev Frame := ℕ → ℕ → Pixel

/-- A single-channel matrix. -/
abbrev Mat := ℕ → ℕ → ℚ

def constMat (q : ℚ) : Mat := fun _ _ => q

def constFrame (c : Pixel) : Frame := fun _ _ => c

/-- The OpenCV / NumPy primitives used by `video_analysis.py`.  These
are library functions external to the repository; each consumer theorem
states the facts about them it needs as hypotheses.  `pixelGray` is the
pointwise kernel of `cv2.cvtColor(_, COLOR_BGR2GRAY)`; the filters take
the image dimensions to account for border handling; `fft2abs` is
`np.abs ∘ np.fft.fft2`; `hsvHist` is the HSV 2D histogram
(`cv2.cvtColor` to HSV followed by `cv2.calcHist`). -/
structure CVPrims where
  pixelGray : Pixel → ℚ
  sqrt : ℚ → ℚ
  log : ℚ → ℚ
  log2 : ℚ → ℚ
  laplacian : ℕ → ℕ → Mat → Mat
  sobelx : ℕ → ℕ → Mat → Mat
  sobely : ℕ → ℕ → Mat → Mat
  fft2abs : ℕ → ℕ → Mat → Mat
  hsvHist : Frame → Mat

/-- OpenCV `cv2.cvtColor(frame, COLOR_BGR2GRAY)`: pointwise grayscale. -/
def grayMat (P : CVPrims) (f : Frame) : Mat := fun i j => P.pixelGray (f i j)

/-- NumPy `np.sum` over an `h × w` array. -/
def matSum (h w : ℕ) (m : Mat) : ℚ :=
  ∑ i ∈ Finset.range h, ∑ j ∈ Finset.range w, m i j

/-- NumPy `np.mean` over an `h × w` array. -/
def matMean (h w : ℕ) (m : Mat) : ℚ := matSum h w m / (h * w)

/-- NumPy `np.var` (population variance) over an `h × w` array. -/
def matVar (h w : ℕ) (m : Mat) : ℚ :=
  matMean h w (fun i j => (m i j - matMean h w m) ^ 2)

/-- NumPy `np.mean` of a 1D array. -/
def npMean (xs : List ℚ) : ℚ := xs.sum / xs.length

/-- NumPy `np.var` of a 1D array. -/
def npVar (xs : List ℚ) : ℚ := npMean (xs.map (fun x => (x - npMean xs) ^ 2))

/-- NumPy `np.std` of a 1D array (`sqrt` of the population variance). -/
def npStd (P : CVPrims) (xs : List ℚ) : ℚ := P.sqrt (npVar xs)

/-- Python `range(start, stop, step)` for a positive step. -/
def pyRange (start stop step : ℕ) : List ℕ :=
  (List.range ((stop - start + (step - 1)) / step)).map (fun k => start + k * step)

/-- Python 3 `round(x, d)`: round half to even at `d` decimal places. -/
def pyRound (d : ℕ) (x : ℚ) : ℚ :=
  let y := x * 10 ^ d
  let f := ⌊y⌋
  let r := y - f
  let n : ℤ :=
    if r < 1/2 then f
    else if 1/2 < r then f + 1
    else if f % 2 = 0 then f else f + 1
  (n : ℚ) / 10 ^ d

/-- Embeds `_laplacian_variance` (video_analysis.py lines 50-54). -/
def laplacianVariance (P : CVPrims) (h w : ℕ) (f : Frame) : ℚ :=
  matVar h w (P.laplacian h w (grayMat P f))

/-- Embeds `_color_histogram_entropy` (video_analysis.py lines 57-70): clamp the
HSV histogram away from zero, normalise it, and take Shannon entropy. -/
def colorHistogramEntropy (P : CVPrims) (f : Frame) : ℚ :=
  let hist : Mat := fun i j => max (1/1000000) (P.hsvHist f i j)
  let total := matSum HISTOGRAM_BINS_H HISTOGRAM_BINS_S hist
  let p : Mat := fun i j => hist i j / total
  Neg.neg (matSum HISTOGRAM_BINS_H HISTOGRAM_BINS_S (fun i j => p i j * P.log2 (p i j)))

/-- Embeds `_temporal_difference` (video_analysis.py lines 73-91): mean absolute
grayscale pixel difference of each consecutive frame pair. -/
def temporalDifference (P : CVPrims) (h w : ℕ) (frames : List Frame) : List ℚ :=
  if frames.length < 2 then [0]
  else
    (frames.zip frames.tail).map (fun pr =>
      matMean h w (fun i j => |grayMat P pr.1 i j - grayMat P pr.2 i j|))

/-- The gradient magnitude `np.sqrt(sobelx**2 + sobely**2)`
(video_analysis.py lines 106-108). -/
def sobelGradMag (P : CVPrims) (h w : ℕ) (m : Mat) : Mat :=
  fun i j => P.sqrt (P.sobelx h w m i j ^ 2 + P.sobely h w m i j ^ 2)

/-- The `boundary_edges` list (video_analysis.py lines 112-121): the
total gradient magnitude in a two-pixel band straddling every 8-pixel
block boundary, horizontal boundaries first. -/
def boundaryEdgeSums (P : CVPrims) (h w : ℕ) (m : Mat) : List ℚ :=
  (pyRange 8 h 8).map
    (fun y => ∑ j ∈ Finset.range w, (sobelGradMag P h w m (y - 1) j + sobelGradMag P h w m y j))
  ++ (pyRange 8 w 8).map
    (fun x => ∑ i ∈ Finset.range h, (sobelGradMag P h w m i (x - 1) + sobelGradMag P h w m i x))

/-- Per-frame body of `_compression_artifacts_score` (video_analysis.py
lines 102-134): `none` when the frame is too small to have any 8-pixel
block boundary (nothing is appended), otherwise the artifact ratio. -/
def compressionFrameRatio (P : CVPrims) (h w : ℕ) (f : Frame) : Option ℚ :=
  let boundaryEdges := boundaryEdgeSums P h w (grayMat P f)
  if boundaryEdges = [] then none
  else
    let avgBoundary := npMean boundaryEdges
    let avgInterior := matMean h w (sobelGradMag P h w (grayMat P f))
    if avgInterior > 0 then some (min 1 (avgBoundary / avgInterior)) else some 0

/-- Embeds `_compression_artifacts_score` (video_analysis.py lines 94-137). -/
def compressionArtifactsScore (P : CVPrims) (h w : ℕ) (frames : List Frame) : ℚ :=
  if frames.isEmpty then 0
  else
    let scores := frames.filterMap (compressionFrameRatio P h w)
    if scores = [] then 0 else npMean scores

/-- Embeds `np.log(np.fft.fftshift(np.abs(np.fft.fft2(gray))) + 1)`
(video_analysis.py lines 151-158): `fftshift` rolls each axis by half
its length, so the shifted cell `(i, j)` reads the unshifted cell
`((i - h:2) mod h, (j - w:2) mod w)`. -/
def fftShiftLogMag (P : CVPrims) (h w : ℕ) (m : Mat) : Mat :=
  fun i j =>
    P.log (P.fft2abs h w m ((i + h - h / 2) % h) ((j + w - w / 2) % w) + 1)

/-- The low-frequency energy (video_analysis.py lines 164-168, 175): the
sum of the log-magnitude over the central half-size block. -/
def lowFreqSum (P : CVPrims) (h w : ℕ) (m : Mat) : ℚ :=
  ∑ i ∈ Finset.Ico (h / 2 - h / 4) (h / 2 + h / 4),
    ∑ j ∈ Finset.Ico (w / 2 - w / 4) (w / 2 + w / 4), fftShiftLogMag P h w m i j

/-- Per-frame body of `_frequency_anomaly_score` (video_analysis.py lines
147-186): FFT magnitude, shift, log-compress, split the central
low-frequency block from the rest, and score the deviation of the
high-frequency share from 0.15. -/
def freqFrameScore (P : CVPrims) (h w : ℕ) (f : Frame) : ℚ :=
  let lowFreq := lowFreqSum P h w (grayMat P f)
  let highFreq := matSum h w (fftShiftLogMag P h w (grayMat P f)) - lowFreq
  let hfr := if lowFreq > 0 then highFreq / (lowFreq + highFreq) else 0
  min 1 (|hfr - 15/100| * 5)

/-- Embeds `_frequency_anomaly_score` (video_analysis.py lines 140-188). -/
def frequencyAnomalyScore (P : CVPrims) (h w : ℕ) (frames : List Frame) : ℚ :=
  if frames.isEmpty then 0 else npMean (frames.map (freqFrameScore P h w))

/-- The weighted feature combination of `heuristic_score`
(video_analysis.py lines 281-286). -/
def rawWeighted (s c o f : ℚ) : ℚ :=
  HEURISTIC_WEIGHT_SHARPNESS * s + HEURISTIC_WEIGHT_COMPRESSION * c
    + HEURISTIC_WEIGHT_OPTICAL_FLOW * o + HEURISTIC_WEIGHT_FREQUENCY * f

/-- Embeds `heuristic_score` (video_analysis.py lines 218-309): the five feature
extractors, the weighted aggregate clipped to `[0, 1]`, and the details
map (a Python dict in insertion order). -/
def heuristic_score (P : CVPrims) (h w : ℕ) (frames : List Frame) :
    Except String (ℚ × List (String × ℚ)) :=
  if frames.isEmpty then .error ("No frames provided for heuristic analysis")
  else
    let lapVars := frames.map (laplacianVariance P h w)
    let lapStd := npStd P lapVars
    let lapMeanRaw := npMean lapVars
    let lapMean := if lapMeanRaw = 0 then 1/1000000 else lapMeanRaw
    let sharpnessConsistency := lapStd / lapMean
    let sharpnessScore := min 1 (sharpnessConsistency / SHARPNESS_CONSISTENCY_DIVISOR)
    let compressionScore := compressionArtifactsScore P h w frames
    let tempDiffs := temporalDifference P h w frames
    let tempMean := npMean tempDiffs
    let tempStd := if 1 < tempDiffs.length then npStd P tempDiffs else 0
    let normTempMean := min 1 (tempMean / 50)
    let normTempStd := min 1 (tempStd / 30)
    let flowBase : ℚ :=
      if normTempMean < 1/10 then TEMPORAL_DIFF_LOW_PENALTY
      else if 8/10 < normTempMean then TEMPORAL_DIFF_HIGH_PENALTY
      else 0
    let opticalFlowScore := min 1 (flowBase + normTempStd * (6/10))
    let frequencyScore := frequencyAnomalyScore P h w frames
    let entropies := frames.map (colorHistogramEntropy P)
    let entropyStd := npStd P entropies
    let entropyScore := min 1 (entropyStd / ENTROPY_STD_DIVISOR)
    let rawScore := rawWeighted sharpnessScore compressionScore opticalFlowScore frequencyScore
    let finalScore := max 0 (min 1 rawScore)
    .ok (finalScore,
      [("sharpness_score", pyRound 4 sharpnessScore),
       ("compression_score", pyRound 4 compressionScore),
       ("optical_flow_score", pyRound 4 opticalFlowScore),
       ("frequency_score", pyRound 4 frequencyScore),
       ("entropy_score", pyRound 4 entropyScore),
       ("sharpness_std", pyRound 4 lapStd),
       ("temporal_diff_mean", pyRound 4 tempMean),
       ("temporal_diff_std", pyRound 4 tempStd),
       ("normalized_temporal_mean", pyRound 4 normTempMean),
       ("normalized_temporal_std", pyRound 4 normTempStd)])

/-! `_contains_human` (video_analysis.py lines 191-215). -/

/-- Environment of the face-presence check: whether `import cv2`
succeeds, whether the Haar cascade loaded empty, and how many faces
`detectMultiScale` reports on each frame (all external library state). -/
structure FaceEnv where
  cv2Available : Bool
  cascadeEmpty : Bool
  facesIn : Frame → ℕ

/-- The frame-scanning loop of `_contains_human`: accumulate face counts
and return `True` as soon as the count reaches the requirement. -/
def containsHumanScan (E : FaceEnv) (required : ℕ) : List Frame → ℕ → Bool
  | [], _ => false
  | f :: rest, count =>
    let c := count + E.facesIn f
    if required ≤ c then true else containsHumanScan E required rest c

/-- Embeds `_contains_human` (video_analysis.py lines 191-215). -/
def contains_human (E : FaceEnv) (frames : List Frame) (required : ℕ) : Bool :=
  if !E.cv2Available then false
  else if E.cascadeEmpty then false
  else containsHumanScan E required frames 0

/-! `analyze_video` (video_analysis.py lines 359-432), from the point
where frames have been extracted. -/

/-- Embeds `AnalysisResult` (video_analysis.py lines 38-47). -/
structure AnalysisResult where
  is_ai_generated : Bool
  confidence : ℚ
  detection_method : String
  frame_count : ℕ
  risk_level : String
  processing_time_seconds : ℚ
  details : List (String × ℚ)
deriving DecidableEq

/-- Result assembly of `analyze_video` (lines 411-432): classify against
the threshold, band the risk, round the confidence and elapsed time. -/
def buildResult (finalConfidence : ℚ) (method : String) (frameCount : ℕ)
    (elapsed : ℚ) (details : List (String × ℚ)) : AnalysisResult :=
  { is_ai_generated := decide (CLASSIFICATION_THRESHOLD ≤ finalConfidence)
    confidence := pyRound 2 finalConfidence
    detection_method := method
    frame_count := frameCount
    risk_level := get_risk_level (.num finalConfidence)
    processing_time_seconds := pyRound 2 elapsed
    details := details }

/-- Embeds `analyze_video` after frame extraction (video_analysis.py lines
374-432).  `oracle` is the human-presence check applied to the frames;
`modelOutcome` is `some x` when a model weights path is configured and
inference returned `x` (the code signals inference failure with `-1.0`,
so failures are negative outcomes), `none` when no model is configured;
`elapsed` is the wall-clock duration measured by `time.time()`. -/
def analyze_frames (P : CVPrims) (oracle : List Frame → Bool) (h w : ℕ)
    (frames : List Frame) (modelOutcome : Option ℚ) (elapsed : ℚ) :
    Except String AnalysisResult :=
  if oracle frames = false then
    .ok { is_ai_generated := false
          confidence := 0
          detection_method := "no_human"
          frame_count := frames.length
          risk_level := get_risk_level (.num 0)
          processing_time_seconds := pyRound 2 elapsed
          details := [("humans_detected", 0)] }
  else
    match heuristic_score P h w frames with
    | .error e => .error e
    | .ok (heuristicConfidence, heuristicDetails) =>
      match modelOutcome with
      | some mc =>
        if 0 ≤ mc then
          match ensemble_score (.num heuristicConfidence) (some (.num mc)) with
          | .error e => .error e
          | .ok (fc, method) =>
            .ok (buildResult fc method frames.length elapsed
                  (heuristicDetails ++ [("model_score", pyRound 4 mc)]))
        else
          .ok (buildResult heuristicConfidence "heuristic" frames.length elapsed
                heuristicDetails)
      | none =>
        .ok (buildResult heuristicConfidence "heuristic" frames.length elapsed
              heuristicDetails)

/-- The fields of an `AnalysisResult` other than the wall-clock
processing time. -/
def stripTime (r : AnalysisResult) :
    Bool × ℚ × String × ℕ × String × List (String × ℚ) :=
  (r.is_ai_generated, r.confidence, r.detection_method, r.frame_count,
   r.risk_level, r.details)

/-! Concrete library environments used to instantiate hypothesised
theorems at explicit inputs. -/

/-- A concrete primitive environment: zero filters, identity square
root, zero logarithms, and the exact DFT magnitude on the DC-only case
(all energy at the zero frequency). -/
def testPrims : CVPrims where
  pixelGray := fun _ => 7
  sqrt := id
  log := fun _ => 0
  log2 := fun _ => 0
  laplacian := fun _ _ _ => constMat 0
  sobelx := fun _ _ _ => constMat 0
  sobely := fun _ _ _ => constMat 0
  fft2abs := fun h w m => fun i j => if i = 0 ∧ j = 0 then matSum h w m else 0
  hsvHist := fun _ => constMat 1

/-- A face environment whose Haar cascade failed to load. -/
def brokenCascadeEnv : FaceEnv where
  cv2Available := true
  cascadeEmpty := true
  facesIn := fun _ => 5

/-- A presence oracle that always reports a human. -/
def oracleTrue : List Frame → Bool := fun _ => true

/-- A presence oracle that never reports a human. -/
def oracleFalse : List Frame → Bool := fun _ => false

/-! Helper lemmas. -/

theorem clip01_of_unit (q : ℚ) (h0 : 0 ≤ q) (h1 : q ≤ 1) :
    PyVal.clip01 (.num q) = q := by
  simp [PyVal.clip01, min_eq_right h1, max_eq_right h0]

/-! Claim C2. -/

/-- Claim C2: for every heuristic score `h ∈ [0,1]`, a finite model
score `m ∈ [0,1]` yields `(clip(0.4h + 0.6m, 0, 1), "ensemble")`, while
a `None`, NaN, infinite, non-numeric or out-of-range model score is
treated as unavailable and yields `(h, "heuristic")` with `h`
unchanged. -/
theorem C2_ensemble_fusion (h : ℚ) (h0 : 0 ≤ h) (h1 : h ≤ 1) (m : Option PyVal) :
    (specModelUnavailable m = true →
      ensemble_score (.num h) m = .ok (h, "heuristic")) ∧
    (∀ q : ℚ, m = some (.num q) → 0 ≤ q → q ≤ 1 →
      ensemble_score (.num h) m
        = .ok (max 0 (min 1 ((2/5) * h + (3/5) * q)), "ensemble")) := by
  have hclip : PyVal.clip01 (.num h) = h := clip01_of_unit h h0 h1
  constructor
  · intro hm
    cases m with
    | none => simp [ensemble_score, PyVal.isNumber, PyVal.isNan, hclip]
    | some v =>
      cases v with
      | num q =>
        have hq' : q < 0 ∨ 1 < q := by simpa [specModelUnavailable] using hm
        have hq : ¬(0 ≤ q ∧ q ≤ 1) := fun hc => by
          rcases hq' with h2 | h2 <;> linarith [hc.1, hc.2]
        simp [ensemble_score, PyVal.isNumber, PyVal.isNan, PyVal.inUnitInterval,
          hq, hclip]
      | nonNumeric =>
        simp [ensemble_score, PyVal.isNumber, PyVal.isNan, PyVal.inUnitInterval, hclip]
      | nan =>
        simp [ensemble_score, PyVal.isNumber, PyVal.isNan, PyVal.inUnitInterval, hclip]
      | posInf =>
        simp [ensemble_score, PyVal.isNumber, PyVal.isNan, PyVal.inUnitInterval, hclip]
      | negInf =>
        simp [ensemble_score, PyVal.isNumber, PyVal.isNan, PyVal.inUnitInterval, hclip]
  · intro q hm hq0 hq1
    subst hm
    have hcq : PyVal.clip01 (.num q) = q := clip01_of_unit q hq0 hq1
    simp [ensemble_score, PyVal.isNumber, PyVal.isNan, PyVal.inUnitInterval,
      hq0, hq1, hclip, hcq, ENSEMBLE_WEIGHT_HEURISTIC, ENSEMBLE_WEIGHT_MODEL]
    norm_num

/-- Witness for C2 at the spec's own example `fuse(0.8, 0.8)`. -/
theorem C2_ensemble_fusion_witness :
    ensemble_score (.num (4/5)) (some (.num (4/5)))
      = .ok (max 0 (min 1 ((2/5) * (4/5) + (3/5) * (4/5))), "ensemble") :=
  (C2_ensemble_fusion (4/5) (by norm_num) (by norm_num) (some (.num (4/5)))).2
    (4/5) rfl (by norm_num) (by norm_num)

/-! Claim C3 (corrected). -/

/-- Counterexample to claim C3 as stated: an infinite heuristic score is
not a finite number, yet `ensemble_score` does not raise — `np.isnan`
lets infinity through and the clip turns it into `1.0`. -/
theorem C3_counterexample :
    ensemble_score PyVal.posInf none = .ok (1, "heuristic") := rfl

/-- Claim C3 as amended: `ensemble_score` raises a validation error for
every heuristic input that is non-numeric or NaN (infinite inputs are
accepted and clamped instead). -/
theorem C3_amended_validation (v : PyVal) (m : Option PyVal)
    (hv : v.isNumber = false ∨ v.isNan = true) :
    ensemble_score v m = .error ("Invalid heuristic score") := by
  rcases hv with hv | hv <;> simp [ensemble_score, hv]

/-- Witness for the amended C3 at a NaN heuristic. -/
theorem C3_amended_validation_witness :
    ensemble_score PyVal.nan none = .error ("Invalid heuristic score") :=
  C3_amended_validation PyVal.nan none (Or.inr rfl)

/-! Claim C4. -/

/-- Claim C4: on every numeric, non-NaN confidence the label is
`confidence >= 0.5` and the risk band follows the half-open spec
boundaries; in particular 0.35 is medium, 0.65 is high, and exactly 0.5
is labelled AI-generated. -/
theorem C4_classification (v : PyVal) (hnum : v.isNumber = true)
    (hnan : v.isNan = false) :
    (classify_score v CLASSIFICATION_THRESHOLD = pvGE v CLASSIFICATION_THRESHOLD
      ∧ get_risk_level v = specRisk v)
    ∧ get_risk_level (.num (35/100)) = "medium"
    ∧ get_risk_level (.num (65/100)) = "high"
    ∧ classify_score (.num (1/2)) CLASSIFICATION_THRESHOLD = true := by
  refine ⟨⟨by simp [classify_score, hnum, hnan], ?_⟩,
    by norm_num [get_risk_level, PyVal.isNumber, PyVal.isNan, PyVal.clip01,
      RISK_LEVEL_LOW_THRESHOLD, RISK_LEVEL_MEDIUM_THRESHOLD],
    by norm_num [get_risk_level, PyVal.isNumber, PyVal.isNan, PyVal.clip01,
      RISK_LEVEL_LOW_THRESHOLD, RISK_LEVEL_MEDIUM_THRESHOLD],
    by norm_num [classify_score, pvGE, PyVal.isNumber, PyVal.isNan,
      CLASSIFICATION_THRESHOLD]⟩
  cases v with
  | nonNumeric => simp [PyVal.isNumber] at hnum
  | nan => simp [PyVal.isNan] at hnan
  | posInf =>
    norm_num [get_risk_level, specRisk, pvLT, PyVal.isNumber, PyVal.isNan,
      PyVal.clip01, RISK_LEVEL_LOW_THRESHOLD, RISK_LEVEL_MEDIUM_THRESHOLD]
  | negInf =>
    norm_num [get_risk_level, specRisk, pvLT, PyVal.isNumber, PyVal.isNan,
      PyVal.clip01, RISK_LEVEL_LOW_THRESHOLD, RISK_LEVEL_MEDIUM_THRESHOLD]
  | num q =>
    have h35 : (max 0 (min 1 q) < (35:ℚ)/100) ↔ q < 35/100 := by
      rw [max_lt_iff, min_lt_iff]; norm_num
    have h65 : (max 0 (min 1 q) < (65:ℚ)/100) ↔ q < 65/100 := by
      rw [max_lt_iff, min_lt_iff]; norm_num
    simp only [get_risk_level, specRisk, PyVal.isNumber, PyVal.isNan, PyVal.clip01,
      pvLT, RISK_LEVEL_LOW_THRESHOLD, RISK_LEVEL_MEDIUM_THRESHOLD, Bool.not_true,
      Bool.false_or, Bool.if_false_left, decide_eq_true_eq]
    simp [h35, h65]

/-- Witness for C4 at confidence `0.5`. -/
theorem C4_classification_witness :
    (classify_score (.num (1/2)) CLASSIFICATION_THRESHOLD
        = pvGE (.num (1/2)) CLASSIFICATION_THRESHOLD
      ∧ get_risk_level (.num (1/2)) = specRisk (.num (1/2)))
    ∧ get_risk_level (.num (35/100)) = "medium"
    ∧ get_risk_level (.num (65/100)) = "high"
    ∧ classify_score (.num (1/2)) CLASSIFICATION_THRESHOLD = true :=
  C4_classification (.num (1/2)) rfl rfl

/-! Claim C5. -/

/-- Claim C5: on an invalid confidence (NaN or non-numeric) the risk
classifier does not raise: it returns `"medium"` and label `False`. -/
theorem C5_invalid_confidence (v : PyVal)
    (hv : v.isNumber = false ∨ v.isNan = true) :
    get_risk_level v = "medium" ∧ classify_score v CLASSIFICATION_THRESHOLD = false := by
  rcases hv with hv | hv <;> exact ⟨by simp [get_risk_level, hv], by simp [classify_score, hv]⟩

/-- Witness for C5 at a NaN confidence. -/
theorem C5_invalid_confidence_witness :
    get_risk_level PyVal.nan = "medium"
      ∧ classify_score PyVal.nan CLASSIFICATION_THRESHOLD = false :=
  C5_invalid_confidence PyVal.nan (Or.inr rfl)

/-! Claim C6. -/

/-- Claim C6: the four aggregation weights sum to exactly 1, and on any
feature vector in `[0,1]^4` the raw weighted sum already lies in
`[0,1]` before the final clip. -/
theorem C6_weights_sum_and_bounds (s c o f : ℚ)
    (hs0 : 0 ≤ s) (hs1 : s ≤ 1) (hc0 : 0 ≤ c) (hc1 : c ≤ 1)
    (ho0 : 0 ≤ o) (ho1 : o ≤ 1) (hf0 : 0 ≤ f) (hf1 : f ≤ 1) :
    HEURISTIC_WEIGHT_SHARPNESS + HEURISTIC_WEIGHT_COMPRESSION
      + HEURISTIC_WEIGHT_OPTICAL_FLOW + HEURISTIC_WEIGHT_FREQUENCY = 1
    ∧ 0 ≤ rawWeighted s c o f ∧ rawWeighted s c o f ≤ 1 := by
  refine ⟨by norm_num [HEURISTIC_WEIGHT_SHARPNESS, HEURISTIC_WEIGHT_COMPRESSION,
    HEURISTIC_WEIGHT_OPTICAL_FLOW, HEURISTIC_WEIGHT_FREQUENCY], ?_, ?_⟩ <;>
  · unfold rawWeighted HEURISTIC_WEIGHT_SHARPNESS HEURISTIC_WEIGHT_COMPRESSION
      HEURISTIC_WEIGHT_OPTICAL_FLOW HEURISTIC_WEIGHT_FREQUENCY
    nlinarith

/-- Witness for C6 at the all-ones feature vector. -/
theorem C6_weights_sum_and_bounds_witness :
    HEURISTIC_WEIGHT_SHARPNESS + HEURISTIC_WEIGHT_COMPRESSION
      + HEURISTIC_WEIGHT_OPTICAL_FLOW + HEURISTIC_WEIGHT_FREQUENCY = 1
    ∧ 0 ≤ rawWeighted 1 1 1 1 ∧ rawWeighted 1 1 1 1 ≤ 1 :=
  C6_weights_sum_and_bounds 1 1 1 1 (by norm_num) (by norm_num) (by norm_num)
    (by norm_num) (by norm_num) (by norm_num) (by norm_num) (by norm_num)

/-! Further helper lemmas. -/

/-- Rounding `pyRound` is the identity on values that are exact at `d` decimal
places. -/
theorem pyRound_eq_self (d : ℕ) (x : ℚ) (n : ℤ) (hn : x * 10 ^ d = n) :
    pyRound d x = x := by
  unfold pyRound
  rw [hn]
  simp only [Int.floor_intCast, sub_self]
  norm_num
  rw [div_eq_iff (by positivity : ((10 : ℚ) ^ d) ≠ 0)]
  linarith [hn]

/-- The short-circuit branch of `analyze_frames` when the presence
oracle reports no human. -/
theorem analyze_frames_no_human (P : CVPrims) (oracle : List Frame → Bool)
    (h w : ℕ) (frames : List Frame) (m : Option ℚ) (e : ℚ)
    (hor : oracle frames = false) :
    analyze_frames P oracle h w frames m e =
      .ok { is_ai_generated := false, confidence := 0,
            detection_method := "no_human", frame_count := frames.length,
            risk_level := "low", processing_time_seconds := pyRound 2 e,
            details := [("humans_detected", 0)] } := by
  unfold analyze_frames
  rw [if_pos hor]
  norm_num [get_risk_level, PyVal.isNumber, PyVal.isNan, PyVal.clip01,
    RISK_LEVEL_LOW_THRESHOLD]

/-! Claim C7. -/

/-- Claim C7: whenever the human-presence oracle returns false,
`analyze_video` short-circuits to exactly `is_ai_generated = False`,
`confidence = 0.0`, `detection_method = "no_human"`,
`risk_level = "low"` and `details = {"humans_detected": 0}`, regardless
of frame content. -/
theorem C7_no_human_short_circuit (P : CVPrims) (oracle : List Frame → Bool)
    (h w : ℕ) (frames : List Frame) (m : Option ℚ) (e : ℚ)
    (hor : oracle frames = false) :
    analyze_frames P oracle h w frames m e =
      .ok { is_ai_generated := false, confidence := 0,
            detection_method := "no_human", frame_count := frames.length,
            risk_level := "low", processing_time_seconds := pyRound 2 e,
            details := [("humans_detected", 0)] } :=
  analyze_frames_no_human P oracle h w frames m e hor

/-- Witness for C7 with the never-detecting oracle on an empty frame
list. -/
theorem C7_no_human_short_circuit_witness :
    analyze_frames testPrims oracleFalse 1 1 [] none 0 =
      .ok { is_ai_generated := false, confidence := 0,
            detection_method := "no_human", frame_count := 0,
            risk_level := "low", processing_time_seconds := pyRound 2 0,
            details := [("humans_detected", 0)] } :=
  C7_no_human_short_circuit testPrims oracleFalse 1 1 [] none 0 rfl

/-! Claim C8. -/

/-- Claim C8: on an empty frame set the heuristic aggregator fails with
an input-validation error rather than returning a score. -/
theorem C8_empty_frames (P : CVPrims) (h w : ℕ) :
    heuristic_score P h w [] = .error ("No frames provided for heuristic analysis") :=
  rfl

/-! Claim C9 (corrected). -/

/-- Counterexample to claim C9 as stated: two invocations on the same
frames and model outcome but at different wall-clock durations differ in
the `processing_time_seconds` field, so the results are not bit-identical
in every field. -/
theorem C9_counterexample :
    analyze_frames testPrims oracleFalse 1 1 [] none 0
      ≠ analyze_frames testPrims oracleFalse 1 1 [] none 1 := by
  have e0 : pyRound 2 0 = 0 := pyRound_eq_self 2 0 0 (by norm_num)
  have e1 : pyRound 2 1 = 1 := pyRound_eq_self 2 1 100 (by norm_num)
  have hA := analyze_frames_no_human testPrims oracleFalse 1 1 [] none 0 rfl
  have hB := analyze_frames_no_human testPrims oracleFalse 1 1 [] none 1 rfl
  intro hcontra
  rw [hA, hB, e0, e1] at hcontra
  simp only [Except.ok.injEq, AnalysisResult.mk.injEq] at hcontra
  norm_num at hcontra

/-- Claim C9 as amended: for a fixed frame set and fixed (or absent)
model outcome, repeated invocations agree bit-for-bit on every field
except `processing_time_seconds`, which records the wall-clock duration;
the scoring pipeline itself is deterministic. -/
theorem C9_deterministic_modulo_time (P : CVPrims) (oracle : List Frame → Bool)
    (h w : ℕ) (frames : List Frame) (m : Option ℚ) (e1 e2 : ℚ) :
    (analyze_frames P oracle h w frames m e1).map stripTime
      = (analyze_frames P oracle h w frames m e2).map stripTime := by
  unfold analyze_frames
  by_cases hor : oracle frames = false
  · rw [if_pos hor, if_pos hor]
    rfl
  · rw [if_neg hor, if_neg hor]
    cases heuristic_score P h w frames with
    | error e => rfl
    | ok pr =>
      obtain ⟨hc, hd⟩ := pr
      dsimp only
      cases m with
      | none => rfl
      | some mc =>
        dsimp only
        by_cases hmc : 0 ≤ mc
        · rw [if_pos hmc, if_pos hmc]
          cases ensemble_score (.num hc) (some (.num mc)) with
          | error e => rfl
          | ok pr2 =>
            obtain ⟨fc, meth⟩ := pr2
            rfl
        · rw [if_neg hmc, if_neg hmc]
          rfl

/-! Claim C10. -/

/-- Claim C10: if the Haar face cascade cannot be loaded (cv2 import
fails, or the cascade file is missing/empty so the classifier is empty),
`_contains_human` returns false on every frame set, and `analyze_video`
therefore returns the `no_human` short-circuit result for every video
regardless of content. -/
theorem C10_cascade_failure (E : FaceEnv) (P : CVPrims) (h w : ℕ)
    (frames : List Frame) (required : ℕ) (m : Option ℚ) (e : ℚ)
    (hfail : E.cv2Available = false ∨ E.cascadeEmpty = true) :
    contains_human E frames required = false
    ∧ analyze_frames P (fun fs => contains_human E fs 1) h w frames m e =
        .ok { is_ai_generated := false, confidence := 0,
              detection_method := "no_human", frame_count := frames.length,
              risk_level := "low", processing_time_seconds := pyRound 2 e,
              details := [("humans_detected", 0)] } := by
  have hch : ∀ fs r, contains_human E fs r = false := by
    intro fs r
    rcases hfail with hf | hf <;> simp [contains_human, hf]
  exact ⟨hch frames required,
    analyze_frames_no_human P _ h w frames m e (hch frames 1)⟩

/-- Witness for C10 with an environment whose cascade loaded empty, on a
nonempty frame list whose frames would otherwise show faces. -/
theorem C10_cascade_failure_witness :
    contains_human brokenCascadeEnv [constFrame (1, 2, 3)] 3 = false
    ∧ analyze_frames testPrims (fun fs => contains_human brokenCascadeEnv fs 1)
        1 1 [constFrame (1, 2, 3)] none 0 =
        .ok { is_ai_generated := false, confidence := 0,
              detection_method := "no_human", frame_count := 1,
              risk_level := "low", processing_time_seconds := pyRound 2 0,
              details := [("humans_detected", 0)] } :=
  C10_cascade_failure brokenCascadeEnv testPrims 1 1 [constFrame (1, 2, 3)] 3
    none 0 (Or.inr rfl)

/-! Helper lemmas for the constant-frame scenario (claim C1). -/

theorem npMean_all_zero (xs : List ℚ) (hx : ∀ x ∈ xs, x = 0) : npMean xs = 0 := by
  rw [npMean, List.sum_eq_zero hx, zero_div]

theorem npMean_replicate (n : ℕ) (x : ℚ) (hn : n ≠ 0) :
    npMean (List.replicate n x) = x := by
  rw [npMean, List.sum_replicate, List.length_replicate, nsmul_eq_mul, mul_comm,
    mul_div_assoc, div_self (Nat.cast_ne_zero.mpr hn), mul_one]

theorem npVar_replicate (n : ℕ) (x : ℚ) (hn : n ≠ 0) :
    npVar (List.replicate n x) = 0 := by
  rw [npVar, List.map_replicate, npMean_replicate n _ hn, npMean_replicate n x hn,
    sub_self]
  norm_num

theorem matSum_zero (h w : ℕ) (m : Mat) (hm : ∀ i j, m i j = 0) :
    matSum h w m = 0 := by
  exact Finset.sum_eq_zero fun i _ => Finset.sum_eq_zero fun j _ => hm i j

theorem matMean_zero (h w : ℕ) (m : Mat) (hm : ∀ i j, m i j = 0) :
    matMean h w m = 0 := by
  rw [matMean, matSum_zero h w m hm, zero_div]

theorem matVar_zero (h w : ℕ) (m : Mat) (hm : ∀ i j, m i j = 0) :
    matVar h w m = 0 := by
  rw [matVar]
  apply matMean_zero
  intro i j
  rw [hm i j, matMean_zero h w m hm, sub_zero]
  norm_num

theorem zipReplicate {α β : Type} (m n : ℕ) (a : α) (b : β) :
    List.zip (List.replicate m a) (List.replicate n b)
      = List.replicate (min m n) (a, b) := by
  induction m generalizing n with
  | zero => simp
  | succ k ih =>
    cases n with
    | zero => simp
    | succ l =>
      simp [List.replicate_succ, ih, Nat.succ_min_succ]

theorem filterMapReplicate {α β : Type} (f : α → Option β) (a : α) (n : ℕ) :
    List.filterMap f (List.replicate n a) =
      match f a with
      | none => []
      | some b => List.replicate n b := by
  cases hfa : f a with
  | none =>
    induction n with
    | zero => simp
    | succ k ih =>
      rw [List.replicate_succ, List.filterMap_cons, hfa]
      exact ih
  | some b =>
    induction n with
    | zero => simp
    | succ k ih =>
      dsimp only at ih ⊢
      rw [List.replicate_succ, List.filterMap_cons, hfa, ih, List.replicate_succ]

/-- Index arithmetic of `fftshift`: within range, the rolled index hits
the zero frequency exactly at the centre `n / 2`. -/
theorem shift_mod_eq_zero_iff (n i : ℕ) (hn : 0 < n) (hi : i < n) :
    (i + n - n / 2) % n = 0 ↔ i = n / 2 := by
  have hhalf : n / 2 < n := Nat.div_lt_self hn (by norm_num)
  constructor
  · intro hmod
    obtain ⟨k, hk⟩ := Nat.dvd_of_mod_eq_zero hmod
    have h1 : 0 < i + n - n / 2 := by omega
    have h2 : i + n - n / 2 < 2 * n := by omega
    rw [hk] at h1 h2
    have hk1 : k = 1 := by
      rcases Nat.lt_or_ge k 2 with hk2 | hk2
      · rcases Nat.lt_or_ge k 1 with hk0 | hk0
        · exfalso
          have : k = 0 := by omega
          rw [this, Nat.mul_zero] at h1
          exact absurd h1 (lt_irrefl 0)
        · omega
      · exfalso
        have hge : 2 * n ≤ n * k := by
          calc 2 * n = n * 2 := by ring
          _ ≤ n * k := Nat.mul_le_mul_left n hk2
        omega
    rw [hk1, Nat.mul_one] at hk
    omega
  · intro hieq
    subst hieq
    have heq : n / 2 + n - n / 2 = n := by omega
    rw [heq, Nat.mod_self]

/-- A doubly-indexed sum of an indicator vanishing off a single cell. -/
theorem sum_sum_ite_eq (s t : Finset ℕ) (a b : ℕ) (v : ℚ) :
    (∑ i ∈ s, ∑ j ∈ t, if i = a ∧ j = b then v else 0)
      = if a ∈ s ∧ b ∈ t then v else 0 := by
  have hinner : ∀ i, (∑ j ∈ t, if i = a ∧ j = b then v else 0)
      = if i = a then (if b ∈ t then v else 0) else 0 := by
    intro i
    by_cases hia : i = a
    · subst hia
      simp only [true_and]
      exact Finset.sum_ite_eq' t b (fun _ => v)
    · simp [hia]
  rw [Finset.sum_congr rfl (fun i _ => hinner i),
    Finset.sum_ite_eq' s a (fun _ => if b ∈ t then v else 0)]
  by_cases has : a ∈ s <;> by_cases hbt : b ∈ t <;> simp [has, hbt]

/-- On a constant grayscale image whose DFT magnitude is concentrated at
the zero frequency, the shifted log-magnitude is concentrated at the
centre cell. -/
theorem fftShiftLogMag_const (P : CVPrims) (h w : ℕ) (g : ℚ)
    (hh : 0 < h) (hw : 0 < w) (hlog : P.log 1 = 0)
    (hfft : ∀ i j, P.fft2abs h w (constMat g) i j
      = if i = 0 ∧ j = 0 then g * (h : ℚ) * (w : ℚ) else 0) :
    ∀ i j, i < h → j < w →
      fftShiftLogMag P h w (constMat g) i j
        = if i = h / 2 ∧ j = w / 2 then P.log (g * (h : ℚ) * (w : ℚ) + 1) else 0 := by
  intro i j hi hj
  simp only [fftShiftLogMag]
  rw [hfft]
  by_cases hc : i = h / 2 ∧ j = w / 2
  · have m1 : (i + h - h / 2) % h = 0 := (shift_mod_eq_zero_iff h i hh hi).mpr hc.1
    have m2 : (j + w - w / 2) % w = 0 := (shift_mod_eq_zero_iff w j hw hj).mpr hc.2
    rw [if_pos ⟨m1, m2⟩, if_pos hc]
  · have hnc : ¬((i + h - h / 2) % h = 0 ∧ (j + w - w / 2) % w = 0) := by
      intro hmm
      exact hc ⟨(shift_mod_eq_zero_iff h i hh hi).mp hmm.1,
        (shift_mod_eq_zero_iff w j hw hj).mp hmm.2⟩
    rw [if_neg hnc, if_neg hc, zero_add, hlog]

theorem matSum_fftShift_const (P : CVPrims) (h w : ℕ) (g : ℚ)
    (hh : 0 < h) (hw : 0 < w) (hlog : P.log 1 = 0)
    (hfft : ∀ i j, P.fft2abs h w (constMat g) i j
      = if i = 0 ∧ j = 0 then g * (h : ℚ) * (w : ℚ) else 0) :
    matSum h w (fftShiftLogMag P h w (constMat g))
      = P.log (g * (h : ℚ) * (w : ℚ) + 1) := by
  rw [matSum,
    Finset.sum_congr rfl (fun i hi => Finset.sum_congr rfl (fun j hj =>
      fftShiftLogMag_const P h w g hh hw hlog hfft i j
        (Finset.mem_range.mp hi) (Finset.mem_range.mp hj))),
    sum_sum_ite_eq,
    if_pos ⟨Finset.mem_range.mpr (Nat.div_lt_self hh one_lt_two),
      Finset.mem_range.mpr (Nat.div_lt_self hw one_lt_two)⟩]

theorem lowFreqSum_const (P : CVPrims) (h w : ℕ) (g : ℚ)
    (hh : 0 < h) (hw : 0 < w) (hlog : P.log 1 = 0)
    (hfft : ∀ i j, P.fft2abs h w (constMat g) i j
      = if i = 0 ∧ j = 0 then g * (h : ℚ) * (w : ℚ) else 0) :
    lowFreqSum P h w (constMat g)
      = if 0 < h / 4 ∧ 0 < w / 4 then P.log (g * (h : ℚ) * (w : ℚ) + 1) else 0 := by
  rw [lowFreqSum,
    Finset.sum_congr rfl (fun i hi => Finset.sum_congr rfl (fun j hj =>
      fftShiftLogMag_const P h w g hh hw hlog hfft i j
        (by have := (Finset.mem_Ico.mp hi).2; omega)
        (by have := (Finset.mem_Ico.mp hj).2; omega))),
    sum_sum_ite_eq]
  by_cases hc : 0 < h / 4 ∧ 0 < w / 4
  · obtain ⟨hc1, hc2⟩ := hc
    rw [if_pos ⟨Finset.mem_Ico.mpr ⟨by omega, by omega⟩,
      Finset.mem_Ico.mpr ⟨by omega, by omega⟩⟩, if_pos ⟨hc1, hc2⟩]
  · rw [if_neg ?_, if_neg hc]
    intro hmm
    apply hc
    have h1 := (Finset.mem_Ico.mp hmm.1).2
    have h2 := (Finset.mem_Ico.mp hmm.2).2
    omega

/-- The frequency tail computation `min 1 (|0 - 0.15| * 5) = 0.75`. -/
theorem freq_tail_eval : min 1 (|(0 : ℚ) - 15/100| * 5) = 3/4 := by
  rw [zero_sub, abs_neg, abs_of_nonneg (by norm_num : (0 : ℚ) ≤ 15/100),
    min_eq_right (by norm_num : (15 : ℚ)/100 * 5 ≤ 1)]
  norm_num

/-- On a constant frame the frequency-anomaly per-frame score is exactly
`min 1 (0.15 * 5) = 0.75`. -/
theorem freqFrameScore_const (P : CVPrims) (h w : ℕ) (c : Pixel)
    (hh : 0 < h) (hw : 0 < w) (hlog : P.log 1 = 0)
    (hfft : ∀ i j, P.fft2abs h w (constMat (P.pixelGray c)) i j
      = if i = 0 ∧ j = 0 then P.pixelGray c * (h : ℚ) * (w : ℚ) else 0) :
    freqFrameScore P h w (constFrame c) = 3/4 := by
  have hgray : grayMat P (constFrame c) = constMat (P.pixelGray c) := rfl
  simp only [freqFrameScore, hgray]
  rw [matSum_fftShift_const P h w _ hh hw hlog hfft,
    lowFreqSum_const P h w _ hh hw hlog hfft]
  by_cases hc : 0 < h / 4 ∧ 0 < w / 4
  · rw [if_pos hc, sub_self, add_zero, zero_div, ite_self]
    exact freq_tail_eval
  · rw [if_neg hc, if_neg (lt_irrefl (0 : ℚ))]
    exact freq_tail_eval

theorem frequencyAnomalyScore_const (P : CVPrims) (h w : ℕ) (c : Pixel) (k : ℕ)
    (hh : 0 < h) (hw : 0 < w) (hlog : P.log 1 = 0)
    (hfft : ∀ i j, P.fft2abs h w (constMat (P.pixelGray c)) i j
      = if i = 0 ∧ j = 0 then P.pixelGray c * (h : ℚ) * (w : ℚ) else 0) :
    frequencyAnomalyScore P h w (List.replicate (k + 2) (constFrame c)) = 3/4 := by
  simp only [frequencyAnomalyScore,
    show (List.replicate (k + 2) (constFrame c)).isEmpty = false from rfl,
    Bool.false_eq_true, if_false]
  rw [List.map_replicate, freqFrameScore_const P h w c hh hw hlog hfft,
    npMean_replicate _ _ (by omega)]

theorem sobelGradMag_const (P : CVPrims) (h w : ℕ) (g : ℚ)
    (hsq : P.sqrt 0 = 0)
    (hsx : ∀ i j, P.sobelx h w (constMat g) i j = 0)
    (hsy : ∀ i j, P.sobely h w (constMat g) i j = 0) :
    ∀ i j, sobelGradMag P h w (constMat g) i j = 0 := by
  intro i j
  simp only [sobelGradMag]
  rw [hsx, hsy]
  norm_num [hsq]

/-- On a constant frame, either the frame is too small to have any block
boundary (so nothing is appended) or the artifact ratio is zero. -/
theorem compressionFrameRatio_const (P : CVPrims) (h w : ℕ) (c : Pixel)
    (hsq : P.sqrt 0 = 0)
    (hsx : ∀ i j, P.sobelx h w (constMat (P.pixelGray c)) i j = 0)
    (hsy : ∀ i j, P.sobely h w (constMat (P.pixelGray c)) i j = 0) :
    compressionFrameRatio P h w (constFrame c) = none
      ∨ compressionFrameRatio P h w (constFrame c) = some 0 := by
  have hgray : grayMat P (constFrame c) = constMat (P.pixelGray c) := rfl
  have hgrad := sobelGradMag_const P h w _ hsq hsx hsy
  by_cases hbe : boundaryEdgeSums P h w (constMat (P.pixelGray c)) = []
  · left
    simp only [compressionFrameRatio, hgray]
    rw [if_pos hbe]
  · right
    simp only [compressionFrameRatio, hgray]
    rw [if_neg hbe, matMean_zero h w _ hgrad, if_neg (lt_irrefl (0 : ℚ))]

theorem compressionArtifactsScore_const (P : CVPrims) (h w : ℕ) (c : Pixel) (k : ℕ)
    (hsq : P.sqrt 0 = 0)
    (hsx : ∀ i j, P.sobelx h w (constMat (P.pixelGray c)) i j = 0)
    (hsy : ∀ i j, P.sobely h w (constMat (P.pixelGray c)) i j = 0) :
    compressionArtifactsScore P h w (List.replicate (k + 2) (constFrame c)) = 0 := by
  simp only [compressionArtifactsScore,
    show (List.replicate (k + 2) (constFrame c)).isEmpty = false from rfl,
    Bool.false_eq_true, if_false]
  rw [filterMapReplicate]
  rcases compressionFrameRatio_const P h w c hsq hsx hsy with hnone | hsome
  · rw [hnone]
    rfl
  · rw [hsome]
    dsimp only
    rw [if_neg (by simp : ¬(List.replicate (k + 2) (0 : ℚ) = []))]
    exact npMean_all_zero _ (fun x hx => List.eq_of_mem_replicate hx)

theorem temporalDifference_const (P : CVPrims) (h w : ℕ) (c : Pixel) (k : ℕ) :
    temporalDifference P h w (List.replicate (k + 2) (constFrame c))
      = List.replicate (k + 1) 0 := by
  simp only [temporalDifference, List.length_replicate]
  rw [if_neg (by omega : ¬(k + 2 < 2))]
  have htail : (List.replicate (k + 2) (constFrame c)).tail
      = List.replicate (k + 1) (constFrame c) := by
    simp [List.replicate_succ]
  rw [htail, zipReplicate, min_eq_right (by omega : k + 1 ≤ k + 2),
    List.map_replicate]
  congr 1
  apply matMean_zero
  intro i j
  show |grayMat P (constFrame c) i j - grayMat P (constFrame c) i j| = 0
  rw [sub_self, abs_zero]

/-- Evaluates `heuristic_score` on `k + 2` identical constant-colour frames:
sharpness 0, compression 0, optical flow 0.25 (low-motion penalty only),
frequency 0.75, entropy 0, aggregate `0.2 * 0.25 + 0.2 * 0.75 = 0.2`. -/
theorem heuristic_score_const (P : CVPrims) (h w : ℕ) (c : Pixel) (k : ℕ)
    (hh : 0 < h) (hw : 0 < w)
    (hsq : P.sqrt 0 = 0) (hlog : P.log 1 = 0)
    (hlap : ∀ i j, P.laplacian h w (constMat (P.pixelGray c)) i j = 0)
    (hsx : ∀ i j, P.sobelx h w (constMat (P.pixelGray c)) i j = 0)
    (hsy : ∀ i j, P.sobely h w (constMat (P.pixelGray c)) i j = 0)
    (hfft : ∀ i j, P.fft2abs h w (constMat (P.pixelGray c)) i j
      = if i = 0 ∧ j = 0 then P.pixelGray c * (h : ℚ) * (w : ℚ) else 0) :
    heuristic_score P h w (List.replicate (k + 2) (constFrame c)) =
      .ok (1/5,
        [("sharpness_score", 0), ("compression_score", 0),
         ("optical_flow_score", 1/4), ("frequency_score", 3/4),
         ("entropy_score", 0), ("sharpness_std", 0),
         ("temporal_diff_mean", 0), ("temporal_diff_std", 0),
         ("normalized_temporal_mean", 0), ("normalized_temporal_std", 0)]) := by
  have e1 : List.map (laplacianVariance P h w) (List.replicate (k+2) (constFrame c))
      = List.replicate (k+2) 0 := by
    rw [List.map_replicate]
    congr 1
    exact matVar_zero h w _ hlap
  have e2 : npStd P (List.replicate (k+2) (0:ℚ)) = 0 := by
    rw [npStd, npVar_replicate _ _ (by omega)]
    exact hsq
  have e3 : npMean (List.replicate (k+2) (0:ℚ)) = 0 := npMean_replicate _ _ (by omega)
  have e4 := compressionArtifactsScore_const P h w c k hsq hsx hsy
  have e5 := temporalDifference_const P h w c k
  have e6 : npMean (List.replicate (k+1) (0:ℚ)) = 0 := npMean_replicate _ _ (by omega)
  have e7 : npStd P (List.replicate (k+1) (0:ℚ)) = 0 := by
    rw [npStd, npVar_replicate _ _ (by omega)]
    exact hsq
  have e8 := frequencyAnomalyScore_const P h w c k hh hw hlog hfft
  have e10 : npStd P (List.replicate (k+2) (colorHistogramEntropy P (constFrame c))) = 0 := by
    rw [npStd, npVar_replicate _ _ (by omega)]
    exact hsq
  have p0 : pyRound 4 (0:ℚ) = 0 := pyRound_eq_self 4 0 0 (by norm_num)
  have p14 : pyRound 4 (1/4 : ℚ) = 1/4 := pyRound_eq_self 4 (1/4) 2500 (by norm_num)
  have p34 : pyRound 4 (3/4 : ℚ) = 3/4 := pyRound_eq_self 4 (3/4) 7500 (by norm_num)
  simp only [heuristic_score,
    show (List.replicate (k + 2) (constFrame c)).isEmpty = false from rfl,
    Bool.false_eq_true, if_false]
  rw [e1, e2, e3, e4, e5, e8, List.map_replicate, e10, e6, e7]
  norm_num [min_def, max_def, ite_self, List.length_replicate,
    SHARPNESS_CONSISTENCY_DIVISOR, TEMPORAL_DIFF_LOW_PENALTY,
    TEMPORAL_DIFF_HIGH_PENALTY, ENTROPY_STD_DIVISOR, rawWeighted,
    HEURISTIC_WEIGHT_SHARPNESS, HEURISTIC_WEIGHT_COMPRESSION,
    HEURISTIC_WEIGHT_OPTICAL_FLOW, HEURISTIC_WEIGHT_FREQUENCY, p0, p14, p34]

/-! Claim C1. -/

/-- Claim C1: assuming the presence gate passes, on any `N ≥ 2` identical
constant-colour frames the pipeline yields sharpness 0, compression 0,
temporal-motion 0.25 (low-motion penalty only), frequency anomaly
`min(1, 0.15 * 5) = 0.75`, aggregate heuristic
`0.20 * 0.25 + 0.20 * 0.75 = 0.20`, and with no model available the final
confidence is 0.20 with method `"heuristic"`, risk `"low"`, and
`is_ai_generated = False`.  The hypotheses on the `CVPrims` fields are the
library facts used: the Laplacian and Sobel filters vanish on a constant
image, `sqrt 0 = 0`, `log 1 = 0`, and the DFT magnitude of a constant
image is concentrated at the zero frequency with value `g·h·w`. -/
theorem C1_constant_frames (P : CVPrims) (oracle : List Frame → Bool)
    (h w N : ℕ) (c : Pixel) (e : ℚ)
    (hN : 2 ≤ N) (hh : 0 < h) (hw : 0 < w)
    (hsq : P.sqrt 0 = 0) (hlog : P.log 1 = 0)
    (hlap : ∀ i j, P.laplacian h w (constMat (P.pixelGray c)) i j = 0)
    (hsx : ∀ i j, P.sobelx h w (constMat (P.pixelGray c)) i j = 0)
    (hsy : ∀ i j, P.sobely h w (constMat (P.pixelGray c)) i j = 0)
    (hfft : ∀ i j, P.fft2abs h w (constMat (P.pixelGray c)) i j
      = if i = 0 ∧ j = 0 then P.pixelGray c * (h : ℚ) * (w : ℚ) else 0)
    (horacle : oracle (List.replicate N (constFrame c)) = true) :
    heuristic_score P h w (List.replicate N (constFrame c)) =
      .ok (1/5,
        [("sharpness_score", 0), ("compression_score", 0),
         ("optical_flow_score", 1/4), ("frequency_score", 3/4),
         ("entropy_score", 0), ("sharpness_std", 0),
         ("temporal_diff_mean", 0), ("temporal_diff_std", 0),
         ("normalized_temporal_mean", 0), ("normalized_temporal_std", 0)])
    ∧ analyze_frames P oracle h w (List.replicate N (constFrame c)) none e =
      .ok { is_ai_generated := false, confidence := 1/5,
            detection_method := "heuristic", frame_count := N,
            risk_level := "low", processing_time_seconds := pyRound 2 e,
            details :=
              [("sharpness_score", 0), ("compression_score", 0),
               ("optical_flow_score", 1/4), ("frequency_score", 3/4),
               ("entropy_score", 0), ("sharpness_std", 0),
               ("temporal_diff_mean", 0), ("temporal_diff_std", 0),
               ("normalized_temporal_mean", 0), ("normalized_temporal_std", 0)] } := by
  obtain ⟨k, rfl⟩ : ∃ k, N = k + 2 := ⟨N - 2, by omega⟩
  have hs := heuristic_score_const P h w c k hh hw hsq hlog hlap hsx hsy hfft
  have p15 : pyRound 2 (1/5 : ℚ) = 1/5 := pyRound_eq_self 2 (1/5) 20 (by norm_num)
  refine ⟨hs, ?_⟩
  unfold analyze_frames
  rw [if_neg (by rw [horacle]; simp)]
  rw [hs]
  dsimp only
  simp only [buildResult, List.length_replicate, p15]
  norm_num [CLASSIFICATION_THRESHOLD, get_risk_level, PyVal.isNumber, PyVal.isNan,
    PyVal.clip01, RISK_LEVEL_LOW_THRESHOLD, min_def, max_def]

/-- Witness for C1: two constant-colour 4×4 frames under concrete library
primitives satisfying the stated facts. -/
theorem C1_constant_frames_witness :
    heuristic_score testPrims 4 4 (List.replicate 2 (constFrame (1, 2, 3))) =
      .ok (1/5,
        [("sharpness_score", 0), ("compression_score", 0),
         ("optical_flow_score", 1/4), ("frequency_score", 3/4),
         ("entropy_score", 0), ("sharpness_std", 0),
         ("temporal_diff_mean", 0), ("temporal_diff_std", 0),
         ("normalized_temporal_mean", 0), ("normalized_temporal_std", 0)])
    ∧ analyze_frames testPrims oracleTrue 4 4
        (List.replicate 2 (constFrame (1, 2, 3))) none 0 =
      .ok { is_ai_generated := false, confidence := 1/5,
            detection_method := "heuristic", frame_count := 2,
            risk_level := "low", processing_time_seconds := pyRound 2 0,
            details :=
              [("sharpness_score", 0), ("compression_score", 0),
               ("optical_flow_score", 1/4), ("frequency_score", 3/4),
               ("entropy_score", 0), ("sharpness_std", 0),
               ("temporal_diff_mean", 0), ("temporal_diff_std", 0),
               ("normalized_temporal_mean", 0), ("normalized_temporal_std", 0)] } :=
  C1_constant_frames testPrims oracleTrue 4 4 2 (1, 2, 3) 0
    (by norm_num) (by norm_num) (by norm_num) rfl rfl
    (fun i j => rfl) (fun i j => rfl) (fun i j => rfl)
    (by
      intro i j
      by_cases hc : i = 0 ∧ j = 0
      · rw [if_pos hc]
        show (if i = 0 ∧ j = 0 then matSum 4 4 (constMat 7) else 0)
          = 7 * (4 : ℚ) * 4
        rw [if_pos hc]
        simp [matSum, constMat, Finset.sum_const, Finset.card_range]
        norm_num
      · rw [if_neg hc]
        show (if i = 0 ∧ j = 0 then matSum 4 4 (constMat 7) else 0) = 0
        rw [if_neg hc])
    rfl

end Deepfake
